import Mathlib

/-!
Shallow embedding of the sDict repository (src/app/main.py, src/app/routes.py).

The program is a small orchestration layer: `TDKService.get_data` normalizes
the external dictionary provider's entries for a word, `LanguageAnalyzer.analyze`
sequences dictionary lookup, prompt-context construction, AI call and response
merge, and a Flask handler exposes `POST /analyze`.

The two external providers (the TDK dictionary search and the OpenAI chat
completion) are modelled as function parameters: `search : String → List Entry`
and `ai : JVal → Except String JObj`. Python `Dict[str, Any]` JSON values are
modelled by the inductive `JVal`; Python dict update/lookup semantics by
`pySet` / `pyLookup`. Exceptions are modelled by `Except` with the message
string as payload; `LanguageAnalyzer.analyze` wraps any inner failure into
`AnalysisError` exactly as the `except Exception` clause does.

To express "the provider was (not) invoked", `LanguageAnalyzer.analyze` and
the HTTP handler additionally return the trace of dictionary-search arguments
and of AI-call contexts, by explicit state passing; the Python code performs
exactly those calls at exactly those points.
-/

namespace SDict

/-- JSON-like values, the shape of Python `Dict[str, Any]` data in this
program (orjson never produces anything outside these forms here; numbers in
this program are meaning-order integers). -/
inductive JVal where
  | str : String → JVal
  | num : Int → JVal
  | bool : Bool → JVal
  | arr : List JVal → JVal
  | obj : List (String × JVal) → JVal

/-- A Python JSON object: ordered key/value pairs (orjson-parsed dicts have
unique keys; the order is insertion order, as in Python dicts). -/
abbrev JObj := List (String × JVal)

mutual

/-- All object keys occurring anywhere in a JSON value, in traversal order. -/
def JVal.allKeys : JVal → List String
  | JVal.str _ => []
  | JVal.num _ => []
  | JVal.bool _ => []
  | JVal.arr vs => allKeysList vs
  | JVal.obj kvs => allKeysObj kvs

/-- Keys occurring in a list of JSON values. -/
def allKeysList : List JVal → List String
  | [] => []
  | v :: vs => JVal.allKeys v ++ allKeysList vs

/-- Keys occurring in an object's bindings, each binding's own key included. -/
def allKeysObj : List (String × JVal) → List String
  | [] => []
  | (k, v) :: kvs => k :: (JVal.allKeys v ++ allKeysObj kvs)

end

/-- Python dict lookup `obj[k]` / `k in obj` on an ordered association list:
the binding's value if the key is present. -/
def pyLookup (obj : JObj) (k : String) : Option JVal :=
  (obj.find? (fun kv => kv.1 = k)).map (fun kv => kv.2)

/-- Python dict update `d[k] = v` (as performed by the literal
`d = ⟨**obj, k: v⟩` merge in `LanguageAnalyzer.analyze`): if `k` is already
bound its value is replaced in place, otherwise the binding is appended. -/
def pySet (obj : JObj) (k : String) (v : JVal) : JObj :=
  if obj.any (fun kv => kv.1 = k) then
    obj.map (fun kv => if kv.1 = k then (k, v) else kv)
  else
    obj ++ [(k, v)]

/-- `prop.value` of a tdk meaning property: the provider's enum payload,
carrying the property's full name; absent when the Python object has no
`value` attribute (the `hasattr(prop, 'value')` probe). -/
structure PropValue where
  full_name : String

/-- One grammatical/usage property attached to a meaning, as returned by the
dictionary provider. -/
structure MeaningProp where
  value : Option PropValue

/-- One numbered sense within a dictionary entry, as returned by the provider
(`meaning.order`, `meaning.meaning`, `meaning.properties`). -/
structure Meaning where
  order : Int
  meaning : String
  properties : List MeaningProp

/-- One dictionary entry returned by `tdk.gts.search`: its meanings, its
origin language (the `.name` of the enum when present, `none` when the field
is falsy), and its plural / proper flags. -/
structure Entry where
  meanings : List Meaning
  origin_language : Option String
  plural : Bool
  proper : Bool

/-- One element of the `definitions` list built by `TDKService.get_data`. -/
structure Definition where
  number : Int
  meaning : String
  properties : List String
deriving DecidableEq

/-- The dictionary result dict built by `TDKService.get_data`
(keys `definitions`, `origin`, `plurality`, `proper_noun`). -/
structure DictRes where
  definitions : List Definition
  origin : String
  plurality : String
  proper_noun : String
deriving DecidableEq

namespace TDKService

/-- `TDKService.get_data` (src/app/main.py lines 35-54): query the provider,
raise `ValueError` on an empty result, else flatten every meaning of every
entry into the `definitions` list (number from `meaning.order`, properties
from the property values that are present), and read origin / plurality /
proper-noun from the first entry. -/
def get_data (search : String → List Entry) (word : String) : Except String DictRes :=
  let tdk_data := search word
  match tdk_data with
  | [] => Except.error ("No TDK data found for: " ++ word)
  | first :: _ =>
    Except.ok
      { definitions :=
          tdk_data.flatMap (fun entry =>
            entry.meanings.map (fun meaning =>
              { number := meaning.order
                meaning := meaning.meaning
                properties := meaning.properties.filterMap
                  (fun prop => prop.value.map PropValue.full_name) }))
        origin :=
          match first.origin_language with
          | some nm => nm
          | none => "Unspecified"
        plurality := if first.plural then "Plural" else "Singular"
        proper_noun := if first.proper then "Proper Noun" else "Common Noun" }

end TDKService

/-- The `context` dict built inside `LanguageAnalyzer.analyze`
(src/app/main.py lines 84-95) and sent to the AI provider: the sentence, the
word, and for each definition only its number and meaning. -/
def buildContext (sentence word : String) (tdk_data : DictRes) : JVal :=
  JVal.obj
    [("sentence", JVal.str sentence),
     ("word", JVal.str word),
     ("dictionary", JVal.obj
       [("definitions", JVal.arr
         (tdk_data.definitions.map (fun d =>
           JVal.obj [("number", JVal.num d.number),
                     ("meaning", JVal.str d.meaning)])))])]

/-- One definition as it appears in the response's `dictionary` field
(all three keys, properties included). -/
def defToJVal (d : Definition) : JVal :=
  JVal.obj
    [("number", JVal.num d.number),
     ("meaning", JVal.str d.meaning),
     ("properties", JVal.arr (d.properties.map JVal.str))]

/-- The `dictionary` value placed into the merged response
(src/app/main.py lines 101-106): the full dictionary data. -/
def dictField (tdk_data : DictRes) : JVal :=
  JVal.obj
    [("definitions", JVal.arr (tdk_data.definitions.map defToJVal)),
     ("origin", JVal.str tdk_data.origin),
     ("plurality", JVal.str tdk_data.plurality),
     ("proper_noun", JVal.str tdk_data.proper_noun)]

/-- The orchestrator's opaque error (class `AnalysisError`), carrying only the
stringified cause, as raised by `raise AnalysisError(str(e))`. -/
structure AnalysisError where
  msg : String
deriving DecidableEq

namespace LanguageAnalyzer

/-- `LanguageAnalyzer.analyze` (src/app/main.py lines 80-110): dictionary
lookup, then the trimmed prompt context, then the AI call, then the merge
`⟨**ai_response, dictionary: ...⟩`; any exception from either step is wrapped
into `AnalysisError(str(e))`. Besides the result, the trace of
dictionary-search arguments and of contexts passed to the AI provider is
returned (the code performs exactly these calls). -/
def analyze (search : String → List Entry) (ai : JVal → Except String JObj)
    (sentence word : String) :
    Except AnalysisError JObj × List String × List JVal :=
  match TDKService.get_data search word with
  | Except.error e => (Except.error ⟨e⟩, [word], [])
  | Except.ok tdk_data =>
    let context := buildContext sentence word tdk_data
    match ai context with
    | Except.error e => (Except.error ⟨e⟩, [word], [context])
    | Except.ok ai_response =>
      (Except.ok (pySet ai_response "dictionary" (dictField tdk_data)),
       [word], [context])

end LanguageAnalyzer

/-- The 400 response body of the `/analyze` handler. -/
def missingParamsBody : JVal :=
  JVal.obj [("error", JVal.str "Missing required parameters")]

/-- The `POST /analyze` Flask handler (src/app/main.py lines 119-130, and the
identical validation in src/app/routes.py lines 5-14): `data` is the parsed
JSON body (`none` when `request.get_json()` yields no JSON object). A falsy
body or a body lacking the `sentence` or `word` key is answered 400 with the
missing-parameters body; otherwise the orchestrator runs and its result is
returned with 200, or its `AnalysisError` message with 500 as `{error: msg}`.
The provider-call traces of the orchestrator run (empty when it never ran)
are passed through. -/
def httpAnalyze (search : String → List Entry) (ai : JVal → Except String JObj)
    (data : Option (List (String × String))) :
    (Nat × JVal) × List String × List JVal :=
  match data with
  | none => ((400, missingParamsBody), [], [])
  | some obj =>
    if obj.isEmpty then ((400, missingParamsBody), [], [])
    else
      match (obj.find? (fun kv => kv.1 = "sentence")).map (fun kv => kv.2),
            (obj.find? (fun kv => kv.1 = "word")).map (fun kv => kv.2) with
      | some s, some w =>
        match LanguageAnalyzer.analyze search ai s w with
        | (Except.ok result, sc, ac) => ((200, JVal.obj result), sc, ac)
        | (Except.error e, sc, ac) =>
          ((500, JVal.obj [("error", JVal.str e.msg)]), sc, ac)
      | _, _ => ((400, missingParamsBody), [], [])

/-- The Definition built by `get_data` from one provider meaning. -/
def defOfMeaning (meaning : Meaning) : Definition :=
  { number := meaning.order
    meaning := meaning.meaning
    properties := meaning.properties.filterMap
      (fun prop => prop.value.map PropValue.full_name) }

theorem get_data_ok (search : String → List Entry) (word : String)
    (first : Entry) (rest : List Entry) (h : search word = first :: rest) :
    TDKService.get_data search word =
      Except.ok
        { definitions := (first :: rest).flatMap (fun entry => entry.meanings.map defOfMeaning)
          origin :=
            match first.origin_language with
            | some nm => nm
            | none => "Unspecified"
          plurality := if first.plural then "Plural" else "Singular"
          proper_noun := if first.proper then "Proper Noun" else "Common Noun" } := by
  unfold TDKService.get_data
  simp only [h]
  rfl

theorem get_data_ok_inv (search : String → List Entry) (word : String) (r : DictRes)
    (h : TDKService.get_data search word = Except.ok r) :
    ∃ first rest, search word = first :: rest := by
  unfold TDKService.get_data at h
  cases hs : search word with
  | nil => rw [hs] at h; exact absurd h (by simp)
  | cons first rest => exact ⟨first, rest, rfl⟩

theorem length_flatMap_defs (l : List Entry) :
    (l.flatMap (fun entry => entry.meanings.map defOfMeaning)).length =
      (l.map (fun entry => entry.meanings.length)).sum := by
  induction l with
  | nil => rfl
  | cons e t ih => simp [List.flatMap_cons, ih]

/-- C1. Whenever `TDKService.get_data` succeeds, its `definitions` list is the
flattening, in provider order, of every meaning of every returned entry:
one Definition per meaning (ΣMi in total), each numbered by the meaning's
provider `order` field, its properties being exactly the full names of the
properties whose value is present (valueless properties are skipped, not an
error). -/
theorem c1_lookup_flattens_all_meanings (search : String → List Entry)
    (word : String) (r : DictRes)
    (h : TDKService.get_data search word = Except.ok r) :
    r.definitions =
      (search word).flatMap (fun entry =>
        entry.meanings.map (fun meaning =>
          { number := meaning.order
            meaning := meaning.meaning
            properties := meaning.properties.filterMap
              (fun prop => prop.value.map PropValue.full_name) })) ∧
    r.definitions.length = ((search word).map (fun entry => entry.meanings.length)).sum := by
  obtain ⟨first, rest, hs⟩ := get_data_ok_inv search word r h
  rw [get_data_ok search word first rest hs] at h
  obtain rfl : r = _ := (Except.ok.injEq _ _).mp h.symm
  rw [hs]
  exact ⟨rfl, length_flatMap_defs _⟩

/-- C1 witness: a concrete two-entry provider response (2 + 1 meanings, one
valueless property skipped) on which the theorem's conclusion is evaluated. -/
theorem c1_witness :
    ∃ r, TDKService.get_data
        (fun _ => [⟨[⟨1, "sevinçli", [⟨some ⟨"sıfat"⟩⟩, ⟨none⟩]⟩, ⟨2, "neşeli", []⟩], some "Arapça", false, false⟩,
                   ⟨[⟨1, "kıvançlı", []⟩], none, true, true⟩]) "mutlu" = Except.ok r ∧
      r.definitions =
        [⟨1, "sevinçli", ["sıfat"]⟩, ⟨2, "neşeli", []⟩, ⟨1, "kıvançlı", []⟩] ∧
      r.definitions.length = 3 := by
  refine ⟨⟨[⟨1, "sevinçli", ["sıfat"]⟩, ⟨2, "neşeli", []⟩, ⟨1, "kıvançlı", []⟩],
          "Arapça", "Singular", "Common Noun"⟩, rfl, ?_, rfl⟩
  have h := c1_lookup_flattens_all_meanings
    (fun _ => [⟨[⟨1, "sevinçli", [⟨some ⟨"sıfat"⟩⟩, ⟨none⟩]⟩, ⟨2, "neşeli", []⟩], some "Arapça", false, false⟩,
               ⟨[⟨1, "kıvançlı", []⟩], none, true, true⟩]) "mutlu"
    ⟨[⟨1, "sevinçli", ["sıfat"]⟩, ⟨2, "neşeli", []⟩, ⟨1, "kıvançlı", []⟩],
     "Arapça", "Singular", "Common Noun"⟩ rfl
  exact h.1.trans rfl

/-- C6. On a multi-entry (indeed any nonempty) provider response, the
`origin`, `plurality` and `proper_noun` fields of a successful lookup are
computed from the first returned entry alone, while `definitions` aggregates
the meanings of all entries. -/
theorem c6_scalar_fields_from_first_entry (search : String → List Entry)
    (word : String) (first : Entry) (rest : List Entry)
    (h : search word = first :: rest) (r : DictRes)
    (hr : TDKService.get_data search word = Except.ok r) :
    r.origin = (match first.origin_language with
                | some nm => nm
                | none => "Unspecified") ∧
    r.plurality = (if first.plural then "Plural" else "Singular") ∧
    r.proper_noun = (if first.proper then "Proper Noun" else "Common Noun") ∧
    r.definitions = (first :: rest).flatMap (fun entry => entry.meanings.map defOfMeaning) := by
  rw [get_data_ok search word first rest h] at hr
  obtain rfl : r = _ := (Except.ok.injEq _ _).mp hr.symm
  exact ⟨rfl, rfl, rfl, rfl⟩

/-- C6 witness: two entries with differing flags; the scalar fields come from
the first entry only, the definitions from both. -/
theorem c6_witness :
    ∃ r, TDKService.get_data
        (fun _ => [⟨[⟨1, "a", []⟩], some "Farsça", false, false⟩,
                   ⟨[⟨1, "b", []⟩], some "Arapça", true, true⟩]) "w" = Except.ok r ∧
      r.origin = "Farsça" ∧ r.plurality = "Singular" ∧ r.proper_noun = "Common Noun" ∧
      r.definitions = [⟨1, "a", []⟩, ⟨1, "b", []⟩] := by
  refine ⟨⟨[⟨1, "a", []⟩, ⟨1, "b", []⟩], "Farsça", "Singular", "Common Noun"⟩, rfl, ?_⟩
  have h := c6_scalar_fields_from_first_entry
    (fun _ => [⟨[⟨1, "a", []⟩], some "Farsça", false, false⟩,
               ⟨[⟨1, "b", []⟩], some "Arapça", true, true⟩]) "w"
    ⟨[⟨1, "a", []⟩], some "Farsça", false, false⟩ [⟨[⟨1, "b", []⟩], some "Arapça", true, true⟩]
    rfl _ rfl
  exact ⟨h.1, h.2.1, h.2.2.1, h.2.2.2.trans rfl⟩

/-- C7 counterexample: the claim "a successful lookup always has a non-empty
definitions list" is false: a provider response consisting of one entry with
no meanings makes `get_data` succeed with `definitions = []`. -/
theorem c7_counterexample :
    ¬ (∀ (search : String → List Entry) (word : String) (r : DictRes),
        TDKService.get_data search word = Except.ok r → r.definitions ≠ []) := by
  intro h
  exact h (fun _ => [⟨[], none, false, false⟩]) "kalem"
    ⟨[], "Unspecified", "Singular", "Common Noun"⟩ rfl rfl

/-- C7 (amended). `get_data` fails exactly on an empty provider response, so
a success only guarantees a nonempty definitions list when some returned
entry has at least one meaning; under that assumption the lookup succeeds
with a nonempty definitions list. -/
theorem c7_nonempty_definitions_when_some_meaning (search : String → List Entry)
    (word : String) (h : ∃ e ∈ search word, e.meanings ≠ []) :
    ∃ r, TDKService.get_data search word = Except.ok r ∧ r.definitions ≠ [] := by
  obtain ⟨e, he, hm⟩ := h
  cases hs : search word with
  | nil => rw [hs] at he; exact absurd he (List.not_mem_nil e)
  | cons first rest =>
    refine ⟨_, get_data_ok search word first rest hs, ?_⟩
    simp only [ne_eq, List.flatMap_eq_nil_iff, not_forall]
    rw [hs] at he
    exact ⟨e, he, by simpa using hm⟩

/-- C7 witness: one entry with one meaning; the amended theorem applied to it. -/
theorem c7_witness :
    ∃ r, TDKService.get_data (fun _ => [⟨[⟨1, "sevinçli", []⟩], none, false, false⟩]) "mutlu" =
        Except.ok r ∧ r.definitions ≠ [] :=
  c7_nonempty_definitions_when_some_meaning _ "mutlu"
    ⟨⟨[⟨1, "sevinçli", []⟩], none, false, false⟩, by simp, by simp⟩

/-- C10. A successful lookup's scalar fields are total over missing/boolean
provider data: `plurality` is always "Plural" or "Singular" and `proper_noun`
always "Proper Noun" or "Common Noun" (each determined by the first entry's
flag), and when the first entry's origin language is absent, `origin` is the
literal "Unspecified" (otherwise its name). -/
theorem c10_scalar_fields_total (search : String → List Entry) (word : String)
    (r : DictRes) (h : TDKService.get_data search word = Except.ok r) :
    (r.plurality = "Plural" ∨ r.plurality = "Singular") ∧
    (r.proper_noun = "Proper Noun" ∨ r.proper_noun = "Common Noun") ∧
    (∀ first rest, search word = first :: rest →
      (first.origin_language = none → r.origin = "Unspecified") ∧
      (∀ nm, first.origin_language = some nm → r.origin = nm) ∧
      r.plurality = (if first.plural then "Plural" else "Singular") ∧
      r.proper_noun = (if first.proper then "Proper Noun" else "Common Noun")) := by
  obtain ⟨first, rest, hs⟩ := get_data_ok_inv search word r h
  rw [get_data_ok search word first rest hs] at h
  obtain rfl : r = _ := (Except.ok.injEq _ _).mp h.symm
  refine ⟨by cases first.plural <;> simp, by cases first.proper <;> simp, ?_⟩
  intro e t het
  rw [hs] at het
  obtain ⟨rfl, rfl⟩ : first = e ∧ rest = t := by
    exact ⟨(List.cons.injEq _ _ _ _).mp het |>.1, (List.cons.injEq _ _ _ _).mp het |>.2⟩
  refine ⟨fun ho => by simp [ho], fun nm ho => by simp [ho], rfl, rfl⟩

/-- C10 witness: first entry lacking an origin language, plural and proper
flags false; the fields evaluate to the three literals. -/
theorem c10_witness :
    (DictRes.plurality ⟨[⟨1, "a", []⟩], "Unspecified", "Singular", "Common Noun"⟩ = "Plural" ∨
     DictRes.plurality ⟨[⟨1, "a", []⟩], "Unspecified", "Singular", "Common Noun"⟩ = "Singular") ∧
    (DictRes.proper_noun ⟨[⟨1, "a", []⟩], "Unspecified", "Singular", "Common Noun"⟩ = "Proper Noun" ∨
     DictRes.proper_noun ⟨[⟨1, "a", []⟩], "Unspecified", "Singular", "Common Noun"⟩ = "Common Noun") ∧
    DictRes.origin ⟨[⟨1, "a", []⟩], "Unspecified", "Singular", "Common Noun"⟩ = "Unspecified" ∧
    TDKService.get_data (fun _ => [⟨[⟨1, "a", []⟩], none, false, false⟩]) "w" =
      Except.ok ⟨[⟨1, "a", []⟩], "Unspecified", "Singular", "Common Noun"⟩ := by
  have h := c10_scalar_fields_total (fun _ => [⟨[⟨1, "a", []⟩], none, false, false⟩]) "w"
    ⟨[⟨1, "a", []⟩], "Unspecified", "Singular", "Common Noun"⟩ rfl
  exact ⟨h.1, h.2.1, (h.2.2 _ _ rfl).1 rfl, rfl⟩

/-- C2. On a word for which the provider returns no entries, the orchestrator
fails with the not-found `AnalysisError` built from `get_data`'s `ValueError`
message, the AI-call trace is empty (the AI provider is never called), and
the outcome does not depend on the AI provider at all. -/
theorem c2_empty_lookup_short_circuits (search : String → List Entry)
    (ai : JVal → Except String JObj) (sentence word : String)
    (h : search word = []) :
    TDKService.get_data search word =
      Except.error ("No TDK data found for: " ++ word) ∧
    LanguageAnalyzer.analyze search ai sentence word =
      (Except.error ⟨"No TDK data found for: " ++ word⟩, [word], []) := by
  constructor
  · unfold TDKService.get_data
    simp only [h]
  · unfold LanguageAnalyzer.analyze TDKService.get_data
    simp only [h]

/-- C2 witness: an always-empty provider; the lookup fails with the not-found
error and the orchestrator returns it with an empty AI trace. -/
theorem c2_witness :
    TDKService.get_data (fun _ => []) "mutlu" =
      Except.error "No TDK data found for: mutlu" ∧
    LanguageAnalyzer.analyze (fun _ => []) (fun _ => Except.ok [])
        "Bugün çok mutluyum" "mutlu" =
      (Except.error ⟨"No TDK data found for: mutlu"⟩, ["mutlu"], []) :=
  c2_empty_lookup_short_circuits (fun _ => []) (fun _ => Except.ok [])
    "Bugün çok mutluyum" "mutlu" rfl

theorem lookup_map_replace (obj : JObj) (k : String) (v : JVal) :
    pyLookup (obj.map (fun kv => if kv.1 = k then (k, v) else kv)) k =
      if obj.any (fun kv => kv.1 = k) then some v else none := by
  induction obj with
  | nil => rfl
  | cons kv t ih =>
    by_cases h : kv.1 = k
    · simp [pyLookup, h]
    · simp only [List.map_cons, if_neg h, List.any_cons]
      rw [pyLookup, List.find?_cons_of_neg _ (by simpa using h)]
      have hd : decide (kv.1 = k) = false := by simpa using h
      simp only [hd, Bool.false_or]
      simpa [pyLookup] using ih

/-- Python dict semantics of the merge: after `d[k] = v`, looking up `k`
yields `v`, whether or not `k` was already bound. -/
theorem pyLookup_pySet (obj : JObj) (k : String) (v : JVal) :
    pyLookup (pySet obj k v) k = some v := by
  unfold pySet
  by_cases h : obj.any (fun kv => kv.1 = k)
  · rw [if_pos h, lookup_map_replace, if_pos h]
  · rw [if_neg h]
    unfold pyLookup
    rw [List.find?_append]
    have hn : obj.find? (fun kv => decide (kv.1 = k)) = none := by
      rw [List.find?_eq_none]
      intro x hx
      simp only [List.any_eq_true, not_exists, not_and] at h
      simpa using h x hx
    simp [hn, List.find?]

/-- C3. Whenever the orchestrator succeeds, its result is the AI reply with
the `dictionary` key set to the full dictionary value (definitions with
their properties, origin, plurality, proper_noun) built from what `get_data`
returned, and looking up `dictionary` in the merged result yields exactly
that full dictionary value — for every AI reply, a reply already containing
a `dictionary` key included (the merge overrides it). -/
theorem c3_dictionary_field_full_fidelity (search : String → List Entry)
    (ai : JVal → Except String JObj) (sentence word : String)
    (tdk_data : DictRes) (resp : JObj)
    (h : TDKService.get_data search word = Except.ok tdk_data)
    (hai : ai (buildContext sentence word tdk_data) = Except.ok resp) :
    (LanguageAnalyzer.analyze search ai sentence word).1 =
      Except.ok (pySet resp "dictionary" (dictField tdk_data)) ∧
    pyLookup (pySet resp "dictionary" (dictField tdk_data)) "dictionary" =
      some (dictField tdk_data) := by
  constructor
  · unfold LanguageAnalyzer.analyze
    rw [h]
    simp only [hai]
  · exact pyLookup_pySet resp "dictionary" (dictField tdk_data)

/-- C3 witness: the AI reply itself carries a `dictionary` key; the merged
response's `dictionary` is nevertheless the full lookup value. -/
theorem c3_witness :
    (LanguageAnalyzer.analyze (fun _ => [⟨[⟨1, "sevinçli", []⟩], none, false, false⟩])
        (fun _ => Except.ok [("emotion", JVal.str "joy"), ("dictionary", JVal.str "bogus")])
        "Bugün çok mutluyum" "mutlu").1 =
      Except.ok [("emotion", JVal.str "joy"),
                 ("dictionary", dictField ⟨[⟨1, "sevinçli", []⟩], "Unspecified", "Singular", "Common Noun"⟩)] ∧
    pyLookup [("emotion", JVal.str "joy"),
              ("dictionary", dictField ⟨[⟨1, "sevinçli", []⟩], "Unspecified", "Singular", "Common Noun"⟩)]
        "dictionary" =
      some (dictField ⟨[⟨1, "sevinçli", []⟩], "Unspecified", "Singular", "Common Noun"⟩) := by
  have h := c3_dictionary_field_full_fidelity
    (fun _ => [⟨[⟨1, "sevinçli", []⟩], none, false, false⟩])
    (fun _ => Except.ok [("emotion", JVal.str "joy"), ("dictionary", JVal.str "bogus")])
    "Bugün çok mutluyum" "mutlu"
    ⟨[⟨1, "sevinçli", []⟩], "Unspecified", "Singular", "Common Noun"⟩
    [("emotion", JVal.str "joy"), ("dictionary", JVal.str "bogus")] rfl rfl
  exact ⟨h.1.trans (by rfl), h.2.symm.trans (by rfl) |>.symm⟩

theorem allKeysList_trimmed_defs (l : List Definition) :
    allKeysList (l.map (fun d =>
        JVal.obj [("number", JVal.num d.number), ("meaning", JVal.str d.meaning)])) =
      l.flatMap (fun _ => ["number", "meaning"]) := by
  induction l with
  | nil => rfl
  | cons d t ih =>
    simp only [List.map_cons, allKeysList, JVal.allKeys, allKeysObj, List.flatMap_cons, ih]
    rfl

theorem buildContext_allKeys (sentence word : String) (tdk_data : DictRes) :
    (buildContext sentence word tdk_data).allKeys =
      "sentence" :: "word" :: "dictionary" :: "definitions" ::
        tdk_data.definitions.flatMap (fun _ => ["number", "meaning"]) := by
  simp only [buildContext, JVal.allKeys, allKeysObj, allKeysList,
    allKeysList_trimmed_defs, List.append_nil, List.nil_append, List.cons_append]

/-- C4. The prompt context the orchestrator passes to the AI provider (the
single element of its AI-call trace) is built from the sentence, the word and
the bare (number, meaning) pairs of the definitions only: its keys are
exactly `sentence`, `word`, `dictionary`, `definitions` and the per-definition
`number`/`meaning` keys, and no `properties`, `origin`, `plurality` or
`proper_noun` key occurs anywhere in it. -/
theorem c4_prompt_context_is_trimmed (search : String → List Entry)
    (ai : JVal → Except String JObj) (sentence word : String) (tdk_data : DictRes)
    (h : TDKService.get_data search word = Except.ok tdk_data) :
    (LanguageAnalyzer.analyze search ai sentence word).2.2 =
      [buildContext sentence word tdk_data] ∧
    buildContext sentence word tdk_data =
      JVal.obj [("sentence", JVal.str sentence), ("word", JVal.str word),
        ("dictionary", JVal.obj [("definitions", JVal.arr
          (tdk_data.definitions.map (fun d =>
            JVal.obj [("number", JVal.num d.number), ("meaning", JVal.str d.meaning)])))])] ∧
    "properties" ∉ (buildContext sentence word tdk_data).allKeys ∧
    "origin" ∉ (buildContext sentence word tdk_data).allKeys ∧
    "plurality" ∉ (buildContext sentence word tdk_data).allKeys ∧
    "proper_noun" ∉ (buildContext sentence word tdk_data).allKeys := by
  refine ⟨?_, rfl, ?_, ?_, ?_, ?_⟩
  · unfold LanguageAnalyzer.analyze
    rw [h]
    cases hai : ai (buildContext sentence word tdk_data) <;> simp [hai]
  all_goals
    rw [buildContext_allKeys]
    simp [List.mem_flatMap]

/-- C4 witness: a one-definition lookup (the definition carrying a property);
the context trace and key facts evaluated concretely. -/
theorem c4_witness :
    (LanguageAnalyzer.analyze (fun _ => [⟨[⟨1, "sevinçli", [⟨some ⟨"sıfat"⟩⟩]⟩], some "Arapça", true, true⟩])
        (fun _ => Except.ok []) "Bugün çok mutluyum" "mutlu").2.2 =
      [buildContext "Bugün çok mutluyum" "mutlu"
        ⟨[⟨1, "sevinçli", ["sıfat"]⟩], "Arapça", "Plural", "Proper Noun"⟩] ∧
    "properties" ∉ (buildContext "Bugün çok mutluyum" "mutlu"
        ⟨[⟨1, "sevinçli", ["sıfat"]⟩], "Arapça", "Plural", "Proper Noun"⟩).allKeys := by
  have h := c4_prompt_context_is_trimmed
    (fun _ => [⟨[⟨1, "sevinçli", [⟨some ⟨"sıfat"⟩⟩]⟩], some "Arapça", true, true⟩])
    (fun _ => Except.ok []) "Bugün çok mutluyum" "mutlu"
    ⟨[⟨1, "sevinçli", ["sıfat"]⟩], "Arapça", "Plural", "Proper Noun"⟩ rfl
  exact ⟨h.1, h.2.2.1⟩

theorem httpAnalyze_some_both (search : String → List Entry)
    (ai : JVal → Except String JObj) (sentence word : String) :
    httpAnalyze search ai (some [("sentence", sentence), ("word", word)]) =
      match LanguageAnalyzer.analyze search ai sentence word with
      | (Except.ok result, sc, ac) => ((200, JVal.obj result), sc, ac)
      | (Except.error err, sc, ac) =>
          ((500, JVal.obj [("error", JVal.str err.msg)]), sc, ac) := rfl

/-- C5. Every inner failure — the dictionary lookup raising, or the lookup
succeeding and the AI call raising — makes the orchestrator produce a single
`AnalysisError` holding just the message string (no partial result: a
successful lookup is discarded), and the HTTP handler answers such a request
with status 500 and body `(error, message)`. -/
theorem c5_opaque_error_maps_to_500 (search : String → List Entry)
    (ai : JVal → Except String JObj) (sentence word : String) (e : String)
    (h : TDKService.get_data search word = Except.error e ∨
      ∃ tdk_data, TDKService.get_data search word = Except.ok tdk_data ∧
        ai (buildContext sentence word tdk_data) = Except.error e) :
    (LanguageAnalyzer.analyze search ai sentence word).1 = Except.error ⟨e⟩ ∧
    (httpAnalyze search ai (some [("sentence", sentence), ("word", word)])).1 =
      (500, JVal.obj [("error", JVal.str e)]) := by
  have h1 : (LanguageAnalyzer.analyze search ai sentence word).1 = Except.error ⟨e⟩ := by
    rcases h with he | ⟨tdk_data, ht, hai⟩
    · unfold LanguageAnalyzer.analyze
      rw [he]
    · unfold LanguageAnalyzer.analyze
      rw [ht]
      simp only [hai]
  refine ⟨h1, ?_⟩
  rw [httpAnalyze_some_both]
  rcases hA : LanguageAnalyzer.analyze search ai sentence word with ⟨res, sc, ac⟩
  rw [hA] at h1
  obtain rfl : res = Except.error ⟨e⟩ := h1
  rfl

/-- C5 witness: empty provider response (AI call discardable), the
orchestrator error and the 500 response evaluated on it. -/
theorem c5_witness :
    (LanguageAnalyzer.analyze (fun _ => []) (fun _ => Except.ok []) "s" "w").1 =
      Except.error ⟨"No TDK data found for: w"⟩ ∧
    (httpAnalyze (fun _ => []) (fun _ => Except.ok [])
        (some [("sentence", "s"), ("word", "w")])).1 =
      (500, JVal.obj [("error", JVal.str "No TDK data found for: w")]) :=
  c5_opaque_error_maps_to_500 (fun _ => []) (fun _ => Except.ok []) "s" "w"
    "No TDK data found for: w" (Or.inl rfl)

/-- C8 counterexample: a body whose `sentence` and `word` are both the empty
string is not rejected: with a one-meaning dictionary stub and a trivially
succeeding AI stub the handler answers 200, not 400, so presence of the keys
suffices and emptiness is never checked. -/
theorem c8_counterexample :
    ((httpAnalyze (fun _ => [⟨[⟨1, "m", []⟩], none, false, false⟩])
        (fun _ => Except.ok []) (some [("sentence", ""), ("word", "")])).1).1 = 200 ∧
    (200 : Nat) ≠ 400 := ⟨rfl, by decide⟩

/-- C8 (amended). The handler validates key presence only: a request with no
JSON body, or whose body lacks the `sentence` key or the `word` key (the
empty body included), is answered 400 with the missing-parameters body and no
provider is invoked; the values of the two fields are not validated — in
particular empty strings are accepted and processed. -/
theorem c8_presence_only_validation (search : String → List Entry)
    (ai : JVal → Except String JObj) (data : Option (List (String × String)))
    (h : data = none ∨ ∃ obj, data = some obj ∧
      (obj.find? (fun kv => kv.1 = "sentence") = none ∨
       obj.find? (fun kv => kv.1 = "word") = none)) :
    httpAnalyze search ai data = ((400, missingParamsBody), [], []) := by
  rcases h with rfl | ⟨obj, rfl, hk⟩
  · rfl
  · unfold httpAnalyze
    cases hE : obj.isEmpty
    · simp only [hE, Bool.false_eq_true, if_false]
      rcases hfs : obj.find? (fun kv => kv.1 = "sentence") with _ | p1 <;>
        rcases hfw : obj.find? (fun kv => kv.1 = "word") with _ | p2 <;>
          simp only [hfs, hfw, Option.map_none', Option.map_some']
      rcases hk with hk | hk
      · rw [hfs] at hk; exact absurd hk (by simp)
      · rw [hfw] at hk; exact absurd hk (by simp)
    · simp only [hE, if_true]

/-- C8 witness: a body holding only `sentence`; the amended theorem applied
to it yields the 400 response with empty provider traces. -/
theorem c8_witness :
    httpAnalyze (fun _ => []) (fun _ => Except.ok []) (some [("sentence", "x")]) =
      ((400, missingParamsBody), [], []) :=
  c8_presence_only_validation (fun _ => []) (fun _ => Except.ok [])
    (some [("sentence", "x")])
    (Or.inr ⟨[("sentence", "x")], rfl, Or.inr rfl⟩)

/-- C9. The empty JSON object body is falsy in the handler's validation, so
for every dictionary provider and every AI provider the response is 400 with
the missing-parameters body and both call traces are empty: neither provider
is invoked, and the answer does not depend on either. -/
theorem c9_empty_object_body (search : String → List Entry)
    (ai : JVal → Except String JObj) :
    httpAnalyze search ai (some []) = ((400, missingParamsBody), [], []) := rfl

end SDict
